import Mathlib

/-!
Verification of the Rusty terminal dashboard (src/src/main.rs).

The program is a single-file ratatui application: a static menu, a
label-to-page lookup (`get_page_info`), a render pass, and a key-event
loop mutating two pieces of state (selected index, input buffer).

Shallow embedding conventions:
* Rust's `match` on a `&str` is a chain of string-equality tests, embedded
  as nested `if page = "..."` branches.
* `HashSet<&str>` membership is membership in the literal element list.
* Rust's `String` input buffer is modelled by its list of characters:
  `push c` is `++ [c]`, `pop` is `dropLast`, `clear` is `[]`.
* The event loop body (lines 229-252) becomes the step function
  `handleKey`; the whole `loop` with its fallible terminal calls becomes
  `runLoop`, driven by a list of `Tick`s describing what the terminal
  returns at each iteration.
-/

namespace Rusty

/-- The colors used by the menu classification in `main`
(lines 134-149): `Color::Red`, `Color::Green`, `Color::Gray`
(plus `Yellow`, used only for the highlight/input style). -/
inductive Color where
  | Red
  | Green
  | Gray
  | Yellow
  deriving DecidableEq, Repr

/-- The placeholder triple from the wildcard arm of `get_page_info`
(lines 113-117). -/
def fallbackTriple : String × String × String :=
  ("This page is under construction.", "Left Box", "Right Box")

/-- Embeds `get_page_info` (lines 16-119): maps a page label to the triple
(info text, left box text, right box text). The Rust `match` on `&str`
is a sequence of equality tests, embedded as nested `if`s in source
order, ending in the wildcard placeholder arm. -/
def get_page_info (page : String) : String × String × String :=
  if page = "Home" then
    ("Welcome to your home screen. Here you’ll find your basic stats and property info.",
     "Stats overview",
     "Current property info")
  else if page = "Items" then
    ("This is your inventory. All your collected items will be listed here.",
     "You have no items yet.",
     "Use or discard items here.")
  else if page = "City" then
    ("Visit shops, explore zones, and interact with the city here.",
     "City zones overview",
     "Shops and NPCs")
  else if page = "Job" then
    ("Check your current job, salary, and available tasks.",
     "Job title and salary",
     "Current tasks")
  else if page = "Gym" then
    ("Train your stats here. Strength, speed, defense—you name it.",
     "Stat training panel",
     "Recent training log")
  else if page = "Properties" then
    ("Buy, sell, or upgrade your properties.",
     "Owned properties",
     "Market listings")
  else if page = "Education" then
    ("Enroll in courses to gain skills that unlock new opportunities.",
     "Current courses",
     "Completed courses")
  else if page = "Crimes" then
    ("Perform crimes to gain money and experience. Risk vs reward!",
     "Available crimes",
     "Crime success history")
  else if page = "Missions" then
    ("Complete missions for rewards and progression.",
     "Current missions",
     "Completed missions")
  else if page = "Newspaper" then
    ("Read updates, events, and changes in the game world.",
     "Today’s headlines",
     "Archived news")
  else if page = "Jail" then
    ("See your jail status and how to escape or wait it out.",
     "Time remaining",
     "Escape options")
  else if page = "Hospital" then
    ("Check your injuries and time to recover.",
     "Injury status",
     "Recovery tips")
  else if page = "Casino" then
    ("Try your luck with slots, blackjack, and roulette.",
     "Available games",
     "Last win history")
  else if page = "Forums" then
    ("Chat with other players or browse announcements.",
     "Recent threads",
     "Your replies")
  else if page = "Hall of Fame" then
    ("View top players ranked by wealth, strength, and more.",
     "Leaderboard",
     "Your rank")
  else if page = "Faction" then
    ("Manage or join a faction to collaborate with others.",
     "Faction info",
     "Member list")
  else if page = "Recruit Citizens" then
    ("Invite new players and earn rewards.",
     "Referral link",
     "Recruit rewards")
  else if page = "Calendar" then
    ("Track daily and weekly events.",
     "Today’s events",
     "Upcoming events")
  else if page = "Rules" then
    ("Review game rules and avoid punishment.",
     "Most broken rules",
     "Reporting system")
  else
    ("This page is under construction.",
     "Left Box",
     "Right Box")

/-- The labels of the non-wildcard arms of `get_page_info`, in source
order: the keys of the page lookup. -/
def page_keys : List String :=
  ["Home", "Items", "City", "Job", "Gym", "Properties", "Education",
   "Crimes", "Missions", "Newspaper", "Jail", "Hospital", "Casino",
   "Forums", "Hall of Fame", "Faction", "Recruit Citizens", "Calendar", "Rules"]

/-- Embeds `raw_menu_items` (lines 128-132): the static navigation list. -/
def raw_menu_items : List String :=
  ["Home", "Items", "City", "Job", "Gym", "Properties", "Education",
   "Crimes", "Missions", "Newspaper", "Jail", "Hospital", "Casino",
   "Forums", "Hall of Fame", "Faction", "Recruit Citizens", "Calendar", "Rules"]

/-- The `unread` set (line 134); a `HashSet<&str>` modelled by its
element list (membership is all that is ever used). -/
def unread : List String := ["Newspaper", "Crimes", "Messages"]

/-- The `important` set (line 135). -/
def important : List String := ["Hospital", "Jail", "Crimes"]

/-- The per-label color computation inside the `map` at lines 137-149:
important labels are red, else unread labels are green, else gray. -/
def colorOf (label : String) : Color :=
  if label ∈ important then Color.Red
  else if label ∈ unread then Color.Green
  else Color.Gray

/-- Embeds `menu_items` (lines 137-149): each label paired with its color. -/
def menu_items : List (String × Color) :=
  raw_menu_items.map (fun label => (label, colorOf label))

/-- The mutable UI state of the loop: `selected` (line 151) and the
`input` buffer (line 155), the Rust `String` modelled by its list of
characters. -/
structure UIState where
  selected : Nat
  input : List Char
  deriving DecidableEq, Repr

/-- The initial state: `selected = 0` (line 151) and an empty input
buffer (line 155). -/
def initState : UIState := { selected := 0, input := [] }

/-- The key codes matched by the event handler (lines 231-251),
following crossterm's `KeyCode`. The constructors after `Down` are the
unrecognized keys that fall into the wildcard arm at line 250. -/
inductive KeyCode where
  | Char (c : Char)
  | Backspace
  | Enter
  | Esc
  | Up
  | Down
  | Left
  | Right
  | Home
  | End
  | PageUp
  | PageDown
  | Tab
  | BackTab
  | Delete
  | Insert
  | F (n : Nat)
  | Null
  deriving DecidableEq, Repr

/-- Holds exactly on the six key codes with a dedicated arm in the
`match key.code` at lines 231-251. -/
def recognizedKey : KeyCode → Bool
  | KeyCode.Char _ => true
  | KeyCode.Backspace => true
  | KeyCode.Enter => true
  | KeyCode.Esc => true
  | KeyCode.Up => true
  | KeyCode.Down => true
  | _ => false

/-- One step of the event handler (`match key.code`, lines 231-251).
Returns the new state and whether the loop `break`s (only `Esc`).
`Char c` appends to the buffer, `Backspace` pops it, `Enter` clears it,
`Up`/`Down` move the selection guarded exactly as in the source
(`selected > 0`, `selected < menu_items.len() - 1`); everything else is
the wildcard no-op arm. -/
def handleKey (s : UIState) (k : KeyCode) : UIState × Bool :=
  match k with
  | KeyCode.Char c => ({ s with input := s.input ++ [c] }, false)
  | KeyCode.Backspace => ({ s with input := s.input.dropLast }, false)
  | KeyCode.Enter => ({ s with input := [] }, false)
  | KeyCode.Esc => (s, true)
  | KeyCode.Up =>
      (if s.selected > 0 then { s with selected := s.selected - 1 } else s, false)
  | KeyCode.Down =>
      (if s.selected < menu_items.length - 1 then
        { s with selected := s.selected + 1 }
      else s, false)
  | _ => (s, false)

/-- Folds the event handler over a list of key events, ignoring the
break flag: the state reached after the given key presses. -/
def runKeys (ks : List KeyCode) (s : UIState) : UIState :=
  ks.foldl (fun t k => (handleKey t k).1) s

/-- What one render pass (the `terminal.draw` closure, lines 158-226)
puts on screen: the colored menu list with its highlighted row, the
three content panels fed from `get_page_info`, and the input line. -/
structure RenderOutput where
  menu : List (String × Color)
  highlighted : Nat
  infoText : String
  leftText : String
  rightText : String
  inputText : String
  deriving DecidableEq, Repr

/-- The render pass (lines 158-226). `current_page` is
`menu_items[selected].0` (line 204); Rust indexing panics out of
bounds, so the embedding takes the bound as a hypothesis. The three
panels show the components of `get_page_info current_page`
(lines 205-219) and the input box echoes the buffer (line 222). -/
def render (s : UIState) (h : s.selected < menu_items.length) : RenderOutput :=
  let current_page := (menu_items.get ⟨s.selected, h⟩).1
  let page := get_page_info current_page
  { menu := menu_items
    highlighted := s.selected
    infoText := page.1
    leftText := page.2.1
    rightText := page.2.2
    inputText := String.mk s.input }

/-- What the terminal returns during one iteration of the main loop
(lines 157-254): `terminal.draw` may fail (the question mark at
line 226), `event::poll` may fail or time out, `event::read` may
fail or yield a non-key event, or a key event arrives. -/
inductive Tick where
  | drawErr
  | pollErr
  | readErr
  | noEvent
  | nonKeyEvent
  | key (k : KeyCode)
  deriving DecidableEq, Repr

/-- How a run of the main loop ended: `normalQuit` is the `break` on
`Esc` (line 237), `ioError` is an early return through one of the three
question-mark operators inside the loop, `stillRunning` means the tick
list was exhausted with the loop still going. -/
inductive ExitKind where
  | normalQuit
  | ioError
  | stillRunning
  deriving DecidableEq, Repr

/-- Outcome of a run of `main`'s loop: how it exited, whether control
reached the teardown code after the loop (`disable_raw_mode`,
`LeaveAlternateScreen`, `terminal.show_cursor`, lines 256-262), and the
final UI state. -/
structure MainResult where
  exitKind : ExitKind
  cleanupRun : Bool
  finalState : UIState
  deriving DecidableEq, Repr

/-- The main loop (lines 157-254) driven by a tick list. A failing
terminal call propagates with `?` straight out of `main`, so control
never reaches the teardown at lines 256-262 (`cleanupRun := false`);
only the `break` on `Esc` falls through to it (`cleanupRun := true`). -/
def runLoop : List Tick → UIState → MainResult
  | [], s => { exitKind := ExitKind.stillRunning, cleanupRun := false, finalState := s }
  | Tick.drawErr :: _, s =>
      { exitKind := ExitKind.ioError, cleanupRun := false, finalState := s }
  | Tick.pollErr :: _, s =>
      { exitKind := ExitKind.ioError, cleanupRun := false, finalState := s }
  | Tick.readErr :: _, s =>
      { exitKind := ExitKind.ioError, cleanupRun := false, finalState := s }
  | Tick.noEvent :: ts, s => runLoop ts s
  | Tick.nonKeyEvent :: ts, s => runLoop ts s
  | Tick.key k :: ts, s =>
      let r := handleKey s k
      if r.2 then
        { exitKind := ExitKind.normalQuit, cleanupRun := true, finalState := r.1 }
      else
        runLoop ts r.1

end Rusty

namespace Rusty

/-- Helper: every step of the event handler keeps the selected index
strictly below the menu length. -/
theorem handleKey_preserves_bound (s : UIState) (k : KeyCode)
    (h : s.selected < menu_items.length) :
    (handleKey s k).1.selected < menu_items.length := by
  cases k <;> simp only [handleKey] <;> (try split) <;> (try simp_all) <;> omega

/-- Helper: the page lookup never returns the placeholder triple on a
label of the static navigation list. -/
theorem page_of_menu_ne_fallback :
    ∀ l ∈ raw_menu_items, get_page_info l ≠ fallbackTriple := by decide

/-- C1: for every valid selected index `i`, one render pass puts in the
info/left/right panels exactly the triple `get_page_info` returns for
entry `i`'s label (whatever the input buffer holds), and on any label
without a dedicated lookup arm `get_page_info` yields the placeholder
triple ("This page is under construction.", "Left Box", "Right Box"). -/
theorem render_matches_page_lookup :
    (∀ (i : Nat) (h : i < menu_items.length) (inp : List Char),
      ((render ⟨i, inp⟩ h).infoText, (render ⟨i, inp⟩ h).leftText,
        (render ⟨i, inp⟩ h).rightText) = get_page_info (raw_menu_items.getD i "")) ∧
    (∀ label : String, label ∉ page_keys →
      get_page_info label =
        ("This page is under construction.", "Left Box", "Right Box")) := by
  constructor
  · intro i h inp
    have h19 : i < 19 := by simpa [menu_items, raw_menu_items] using h
    interval_cases i <;> rfl
  · intro label hl
    simp only [page_keys, List.mem_cons, List.not_mem_nil, or_false, not_or] at hl
    obtain ⟨h1, h2, h3, h4, h5, h6, h7, h8, h9, h10, h11, h12,
      h13, h14, h15, h16, h17, h18, h19⟩ := hl
    simp only [get_page_info, if_neg h1, if_neg h2, if_neg h3, if_neg h4, if_neg h5,
      if_neg h6, if_neg h7, if_neg h8, if_neg h9, if_neg h10, if_neg h11, if_neg h12,
      if_neg h13, if_neg h14, if_neg h15, if_neg h16, if_neg h17, if_neg h18, if_neg h19]

/-- Witness for C1 at index 0 ("Home") and at the unmapped label
"Quests". -/
theorem render_matches_page_lookup_witness :
    ((render ⟨0, []⟩ (by decide)).infoText, (render ⟨0, []⟩ (by decide)).leftText,
      (render ⟨0, []⟩ (by decide)).rightText) = get_page_info (raw_menu_items.getD 0 "") ∧
    ("Quests" ∉ page_keys ∧
      get_page_info "Quests" =
        ("This page is under construction.", "Left Box", "Right Box")) :=
  ⟨render_matches_page_lookup.1 0 (by decide) [],
   by decide, render_matches_page_lookup.2 "Quests" (by decide)⟩

/-- C2 (code bug): the claim requires the terminal teardown
(`disable_raw_mode`, `LeaveAlternateScreen`, `show_cursor`,
lines 256-262) to run on every exit path, but a terminal I/O error
inside the loop propagates through `?` straight out of `main` before
that code: the error exit leaves `cleanupRun = false`, while the normal
`Esc` quit reaches it. -/
theorem cleanup_skipped_on_io_error :
    (runLoop [Tick.drawErr] initState).exitKind = ExitKind.ioError ∧
    (runLoop [Tick.drawErr] initState).cleanupRun = false ∧
    (runLoop [Tick.key KeyCode.Esc] initState).exitKind = ExitKind.normalQuit ∧
    (runLoop [Tick.key KeyCode.Esc] initState).cleanupRun = true := by decide

/-- C3: arrow-up at index 0 and arrow-down at the last index leave the
state unchanged; otherwise up decrements and down increments the
selected index by one (input buffer untouched, loop not terminated). -/
theorem arrow_keys_clamped (s : UIState) :
    (s.selected = 0 → handleKey s KeyCode.Up = (s, false)) ∧
    (0 < s.selected →
      handleKey s KeyCode.Up = ({ s with selected := s.selected - 1 }, false)) ∧
    (s.selected = menu_items.length - 1 → handleKey s KeyCode.Down = (s, false)) ∧
    (s.selected < menu_items.length - 1 →
      handleKey s KeyCode.Down = ({ s with selected := s.selected + 1 }, false)) := by
  refine ⟨?_, ?_, ?_, ?_⟩
  · intro h; simp [handleKey, h]
  · intro h; simp [handleKey, h]
  · intro h; simp [handleKey, h]
  · intro h; simp [handleKey, h]

/-- Witness for C3 at indices 0, 5, 18 (the last index) and 5. -/
theorem arrow_keys_clamped_witness :
    handleKey { selected := 0, input := [] } KeyCode.Up
      = ({ selected := 0, input := [] }, false) ∧
    handleKey { selected := 5, input := [] } KeyCode.Up
      = ({ selected := 4, input := [] }, false) ∧
    handleKey { selected := 18, input := [] } KeyCode.Down
      = ({ selected := 18, input := [] }, false) ∧
    handleKey { selected := 5, input := [] } KeyCode.Down
      = ({ selected := 6, input := [] }, false) :=
  ⟨(arrow_keys_clamped { selected := 0, input := [] }).1 rfl,
   (arrow_keys_clamped { selected := 5, input := [] }).2.1 (by decide),
   (arrow_keys_clamped { selected := 18, input := [] }).2.2.1 (by decide),
   (arrow_keys_clamped { selected := 5, input := [] }).2.2.2 (by decide)⟩

/-- C4: every event-handler step preserves the bound
`selected < menu_items.length`, and every state reachable from the
initial state by any sequence of key events satisfies it. -/
theorem selected_index_in_bounds :
    (∀ (s : UIState) (k : KeyCode), s.selected < menu_items.length →
      (handleKey s k).1.selected < menu_items.length) ∧
    (∀ ks : List KeyCode, (runKeys ks initState).selected < menu_items.length) := by
  constructor
  · exact handleKey_preserves_bound
  · intro ks
    suffices hgen : ∀ s : UIState, s.selected < menu_items.length →
        (runKeys ks s).selected < menu_items.length from hgen initState (by decide)
    induction ks with
    | nil => intro s hs; exact hs
    | cons k ks ih => intro s hs; exact ih _ (handleKey_preserves_bound s k hs)

/-- Witness for C4: one step from the initial state and a one-event
run both stay in bounds. -/
theorem selected_index_in_bounds_witness :
    (handleKey { selected := 0, input := [] } KeyCode.Down).1.selected
      < menu_items.length ∧
    (runKeys [KeyCode.Down] initState).selected < menu_items.length :=
  ⟨selected_index_in_bounds.1 { selected := 0, input := [] } KeyCode.Down (by decide),
   selected_index_in_bounds.2 [KeyCode.Down]⟩

/-- C5: appending any character and then applying backspace restores
the whole state (in particular the input buffer), and backspace on an
empty buffer is a complete no-op. -/
theorem input_push_backspace_roundtrip (s : UIState) (c : Char) :
    (handleKey (handleKey s (KeyCode.Char c)).1 KeyCode.Backspace).1 = s ∧
    (s.input = [] → handleKey s KeyCode.Backspace = (s, false)) := by
  obtain ⟨sel, inp⟩ := s
  constructor
  · simp [handleKey]
  · intro h; simp_all [handleKey]

/-- Witness for C5 with the character x on an empty buffer. -/
theorem input_push_backspace_roundtrip_witness :
    (handleKey (handleKey { selected := 2, input := [] } (KeyCode.Char 'x')).1
      KeyCode.Backspace).1 = { selected := 2, input := [] } ∧
    handleKey { selected := 2, input := [] } KeyCode.Backspace
      = ({ selected := 2, input := [] }, false) :=
  ⟨(input_push_backspace_roundtrip { selected := 2, input := [] } 'x').1,
   (input_push_backspace_roundtrip { selected := 2, input := [] } 'x').2 rfl⟩

/-- C6: the enter key clears the input buffer and changes nothing
else: the selected index is kept, and the loop does not terminate (the
menu list is a constant the handler cannot touch). -/
theorem enter_clears_input_only (s : UIState) :
    handleKey s KeyCode.Enter = ({ selected := s.selected, input := [] }, false) := rfl

/-- C7: every entry of the colored menu list carries one of the three
color categories, and a label in the `important` set is red even when
it is also in the `unread` set (important wins). -/
theorem menu_color_classification :
    (∀ p ∈ menu_items, p.2 = Color.Red ∨ p.2 = Color.Green ∨ p.2 = Color.Gray) ∧
    (∀ label : String, label ∈ important → label ∈ unread →
      colorOf label = Color.Red) := by
  constructor
  · intro p hp
    rw [menu_items, List.mem_map] at hp
    obtain ⟨l, -, rfl⟩ := hp
    by_cases h1 : l ∈ important <;> by_cases h2 : l ∈ unread <;> simp [colorOf, h1, h2]
  · intro label h1 h2
    simp [colorOf, h1]

/-- Witness for C7 at "Crimes", the label in both sets. -/
theorem menu_color_classification_witness :
    (("Crimes", colorOf "Crimes").2 = Color.Red ∨
      ("Crimes", colorOf "Crimes").2 = Color.Green ∨
      ("Crimes", colorOf "Crimes").2 = Color.Gray) ∧
    ("Crimes" ∈ important ∧ "Crimes" ∈ unread ∧ colorOf "Crimes" = Color.Red) :=
  ⟨menu_color_classification.1 ("Crimes", colorOf "Crimes") (by decide),
   by decide, by decide,
   menu_color_classification.2 "Crimes" (by decide) (by decide)⟩

/-- C8: three arrow-down events from the initial state select index 3,
whose label is "Job", and the next render pass shows the Job page's
info, left, and right text. -/
theorem three_downs_select_job :
    ∃ h : (runKeys [KeyCode.Down, KeyCode.Down, KeyCode.Down] initState).selected
        < menu_items.length,
      (runKeys [KeyCode.Down, KeyCode.Down, KeyCode.Down] initState).selected = 3 ∧
      raw_menu_items.getD 3 "" = "Job" ∧
      ((render (runKeys [KeyCode.Down, KeyCode.Down, KeyCode.Down] initState) h).infoText,
        (render (runKeys [KeyCode.Down, KeyCode.Down, KeyCode.Down] initState) h).leftText,
        (render (runKeys [KeyCode.Down, KeyCode.Down, KeyCode.Down] initState) h).rightText)
        = ("Check your current job, salary, and available tasks.",
           "Job title and salary", "Current tasks") :=
  ⟨by decide, by decide, by decide, by decide⟩

/-- C9: any key without a dedicated arm in the handler falls into the
wildcard arm: the state is unchanged and the loop does not stop. -/
theorem unrecognized_key_is_noop (s : UIState) (k : KeyCode)
    (h : recognizedKey k = false) : handleKey s k = (s, false) := by
  cases k <;> simp_all [recognizedKey, handleKey]

/-- Witness for C9 with the left-arrow key. -/
theorem unrecognized_key_is_noop_witness :
    recognizedKey KeyCode.Left = false ∧
    handleKey { selected := 0, input := [] } KeyCode.Left
      = ({ selected := 0, input := [] }, false) :=
  ⟨rfl, unrecognized_key_is_noop { selected := 0, input := [] } KeyCode.Left rfl⟩

/-- C10: all 19 labels of the static navigation list have a dedicated
arm in the page lookup, so no render pass over a valid selection ever
shows the placeholder triple. -/
theorem all_menu_labels_have_pages :
    (∀ label ∈ raw_menu_items,
      label ∈ page_keys ∧ get_page_info label ≠ fallbackTriple) ∧
    (∀ (s : UIState) (h : s.selected < menu_items.length),
      ((render s h).infoText, (render s h).leftText, (render s h).rightText)
        ≠ fallbackTriple) := by
  constructor
  · decide
  · intro s h
    have h' : s.selected < raw_menu_items.length := by simpa [menu_items] using h
    have e : ((render s h).infoText, (render s h).leftText, (render s h).rightText)
        = get_page_info (menu_items.get ⟨s.selected, h⟩).1 := rfl
    have e2 : (menu_items.get ⟨s.selected, h⟩).1
        = raw_menu_items.get ⟨s.selected, h'⟩ := by
      simp [menu_items, List.get_eq_getElem, List.getElem_map]
    rw [e, e2]
    exact page_of_menu_ne_fallback _ (List.get_mem _ _ _)

/-- Witness for C10 at the label "Home" and the initial state. -/
theorem all_menu_labels_have_pages_witness :
    ("Home" ∈ raw_menu_items ∧
      "Home" ∈ page_keys ∧ get_page_info "Home" ≠ fallbackTriple) ∧
    ((render initState (by decide)).infoText, (render initState (by decide)).leftText,
      (render initState (by decide)).rightText) ≠ fallbackTriple :=
  ⟨⟨by decide, all_menu_labels_have_pages.1 "Home" (by decide)⟩,
   all_menu_labels_have_pages.2 initState (by decide)⟩

end Rusty
